import Mathlib

/- Formal model of the file-organizer pipeline in src/sample.py.

   The core pipeline is the LangGraph chain classify -> move -> log over a
   per-file record (filepath, category, new_path, logs).  We embed:
   * clean_category (the regex-based normalizer of oracle responses),
   * classify_file (extension table lookup with LLM-oracle fallback),
   * move_file (destination derivation and relocation),
   * log_report, and the composed pipeline invocation.

   The filesystem is modelled as the list of existing regular-file paths,
   the LLM as an oracle function from the filename to an `Except` response,
   and Python exceptions as `Except.error`.  Python string/path helpers
   (str.strip, str.lower for ASCII, os.path.basename/dirname/join for POSIX
   paths, str.split(".")[-1]) are modelled character-by-character on
   `List Char`.  The second component of `classify_file`'s result counts
   how many times the oracle was invoked (0 or 1); it is instrumentation
   and does not influence the record. -/

/-- The whitespace characters stripped by Python str.strip (ASCII range). -/
def pyIsSpace (c : Char) : Bool :=
  c.toNat == 32 || c.toNat == 9 || c.toNat == 10 || c.toNat == 13 ||
    c.toNat == 11 || c.toNat == 12

/-- One-character ASCII lowercasing, as Python str.lower acts on A-Z. -/
def pyLowerChar (c : Char) : Char :=
  if 65 ≤ c.toNat ∧ c.toNat ≤ 90 then Char.ofNat (c.toNat + 32) else c

/-- The characters kept by the regex [a-z0-9_-] in clean_category. -/
def isAllowedChar (c : Char) : Bool :=
  (decide (97 ≤ c.toNat) && decide (c.toNat ≤ 122)) ||
    (decide (48 ≤ c.toNat) && decide (c.toNat ≤ 57)) ||
    c.toNat == 95 || c.toNat == 45

/-- Python str.strip on a character list: drop whitespace at both ends. -/
def stripList (l : List Char) : List Char :=
  ((l.dropWhile pyIsSpace).reverse.dropWhile pyIsSpace).reverse

/-- The default category substituted for an empty normalized response. -/
def othersCat : String := "others"

/-- clean_category from src/sample.py: strip, lowercase, delete every
    character outside [a-z0-9_-], and fall back to "others" when empty. -/
def clean_category (cat : String) : String :=
  let s := ((stripList cat.data).map pyLowerChar).filter isAllowedChar
  if s = [] then othersCat else String.mk s

/-- os.path.basename for POSIX paths: the part after the last slash. -/
def basename (p : String) : String :=
  String.mk ((p.data.reverse.takeWhile (fun c => c != '/')).reverse)

/-- os.path.dirname for POSIX paths: the prefix up to the last slash, with
    trailing slashes stripped unless the head is empty or all slashes. -/
def dirname (p : String) : String :=
  let head := (p.data.reverse.dropWhile (fun c => c != '/')).reverse
  if head ≠ [] ∧ head.any (fun c => c != '/') = true then
    String.mk ((head.reverse.dropWhile (fun c => c == '/')).reverse)
  else String.mk head

/-- A single slash, as a string. -/
def slashStr : String := "/"

/-- os.path.join for POSIX paths, two arguments. -/
def pyJoin (a b : String) : String :=
  if b.data.head? = some '/' then b
  else if a.data = [] ∨ a.data.getLast? = some '/' then a ++ b
  else a ++ slashStr ++ b

/-- filename.split(".")[-1].lower(): the lowercased suffix after the last
    dot, or the whole lowercased filename when it contains no dot. -/
def extOf (filename : String) : String :=
  String.mk (((filename.data.reverse.takeWhile (fun c => c != '.')).reverse).map
    pyLowerChar)

/-- The fixed extension-to-category table of classify_file. -/
def mapping : List (String × String) :=
  [("pdf", "documents"), ("doc", "documents"), ("docx", "documents"),
   ("txt", "documents"), ("md", "documents"), ("rtf", "documents"),
   ("epub", "documents"),
   ("png", "images"), ("jpg", "images"), ("jpeg", "images"),
   ("gif", "images"), ("svg", "images"), ("webp", "images"),
   ("mp4", "videos"), ("mkv", "videos"), ("mov", "videos"),
   ("avi", "videos"), ("wmv", "videos"), ("webm", "videos"),
   ("mp3", "audio"), ("wav", "audio"), ("aac", "audio"),
   ("ogg", "audio"), ("flac", "audio"),
   ("zip", "archives"), ("rar", "archives"), ("tar", "archives"),
   ("gz", "archives"), ("7z", "archives"),
   ("py", "code"), ("js", "code"), ("ts", "code"), ("html", "code"),
   ("css", "code"), ("java", "code"), ("c", "code"), ("cpp", "code"),
   ("cs", "code"), ("rb", "code"), ("php", "code"), ("swift", "code"),
   ("go", "code"), ("rs", "code"), ("kt", "code"), ("sh", "code"),
   ("bat", "code"),
   ("csv", "data"), ("xlsx", "spreadsheets"), ("xls", "spreadsheets"),
   ("ods", "spreadsheets"), ("json", "data"), ("xml", "data"),
   ("yaml", "data"), ("yml", "data"),
   ("exe", "applications"), ("dll", "system"), ("bin", "binaries"),
   ("iso", "disk_images")]

/-- Python dict lookup on an association list of string pairs. -/
def lookupTable : List (String × String) → String → Option String
  | [], _ => none
  | (k, v) :: t, e => if k = e then some v else lookupTable t e

/-- The per-file record threaded through the pipeline (FileState). -/
structure FileState where
  filepath : String
  category : String
  new_path : String
  logs : List String
  deriving DecidableEq

/-- Python exceptions that the pipeline can surface. -/
inductive PyErr where
  | fileNotFound : PyErr
  | oracleError : PyErr
  deriving DecidableEq

/-- Literal fragments of the log messages. -/
def classifiedA : String := "Classified "

/-- Literal fragment between the filename and the category. -/
def classifiedB : String := " as "

/-- Literal fragment of the move-stage log message. -/
def movedA : String := "Moved file to "

/-- The terminal log message of log_report. -/
def completedMsg : String := "Completed file processing."

/-- The fixed destination-root subdirectory name. -/
def organizedDir : String := "organized"

/-- The literal segment between the parent directory and the category. -/
def orgSeg : String := "/organized/"

/-- The classify-stage log message. -/
def classifiedMsg (filename cat : String) : String :=
  classifiedA ++ filename ++ classifiedB ++ cat

/-- The move-stage log message. -/
def movedMsg (p : String) : String :=
  movedA ++ p

/-- classify_file from src/sample.py.  The oracle stands for llm.invoke on
    the prompt built from the filename; its failure models a raised network
    or service exception.  The Nat counts oracle invocations. -/
def classify_file (oracle : String → Except PyErr String) (state : FileState) :
    Except PyErr FileState × Nat :=
  let filename := basename state.filepath
  let ext := extOf filename
  match lookupTable mapping ext with
  | some cat =>
      (Except.ok { state with
          category := cat,
          logs := state.logs ++ [classifiedMsg filename cat] }, 0)
  | none =>
      match oracle filename with
      | Except.error e => (Except.error e, 1)
      | Except.ok resp =>
          let cat := clean_category resp
          (Except.ok { state with
              category := cat,
              logs := state.logs ++ [classifiedMsg filename cat] }, 1)

/-- The destination path computed in move_file: the parent directory of the
    source, then "organized", then the category, then the base filename. -/
def destPath (st : FileState) : String :=
  let input_folder := dirname st.filepath
  let base_folder := pyJoin input_folder organizedDir
  let target_folder := pyJoin base_folder st.category
  pyJoin target_folder (basename st.filepath)

/-- move_file from src/sample.py over the file-set model of the filesystem:
    os.makedirs(..., exist_ok=True) never fails and directories are
    implicit, and shutil.move relocates the source when it exists and
    raises FileNotFoundError when it does not (raised before any state
    mutation, so the error case returns the record untouched). -/
def move_file (fs : List String) (st : FileState) :
    Except PyErr (FileState × List String) :=
  if st.filepath ∈ fs then
    Except.ok ({ st with
                   new_path := destPath st,
                   logs := st.logs ++ [movedMsg (destPath st)] },
               destPath st :: fs.filter (fun q => q != st.filepath))
  else Except.error PyErr.fileNotFound

/-- log_report from src/sample.py: append the terminal marker. -/
def log_report (st : FileState) : FileState :=
  { st with logs := st.logs ++ [completedMsg] }

/-- The fresh record the UI passes to app.invoke for one file. -/
def initState (fp : String) : FileState :=
  { filepath := fp, category := "", new_path := "", logs := [] }

/-- app.invoke: the compiled classify -> move -> log chain.  An exception in
    a stage propagates and aborts the invocation; the Nat is the oracle
    invocation count from the classify stage. -/
def appInvoke (oracle : String → Except PyErr String) (fs : List String)
    (input : FileState) : Except PyErr (FileState × List String) × Nat :=
  match classify_file oracle input with
  | (Except.error e, n) => (Except.error e, n)
  | (Except.ok st1, n) =>
      match move_file fs st1 with
      | Except.error e => (Except.error e, n)
      | Except.ok (st2, fs2) => ((Except.ok (log_report st2, fs2)), n)

/-- Python str.lower on a whole string (ASCII range). -/
def pyLowerStr (s : String) : String :=
  String.mk (s.data.map pyLowerChar)

/- Helper lemmas about characters and lists. -/

theorem allowed_not_space {c : Char} (h : isAllowedChar c = true) :
    pyIsSpace c = false := by
  simp [isAllowedChar] at h
  simp [pyIsSpace]
  omega

theorem allowed_lower_self {c : Char} (h : isAllowedChar c = true) :
    pyLowerChar c = c := by
  simp [isAllowedChar] at h
  simp only [pyLowerChar]
  rw [if_neg (by omega)]

theorem allowed_ne_slash {c : Char} (h : isAllowedChar c = true) : c ≠ '/' := by
  intro hc
  subst hc
  exact absurd h (by decide)

theorem dropWhile_all_neg {p : Char → Bool} (l : List Char)
    (h : ∀ c ∈ l, p c = false) : l.dropWhile p = l := by
  cases l with
  | nil => rfl
  | cons a t =>
      exact List.dropWhile_cons_of_neg (by simp [h a (List.mem_cons_self a t)])

theorem takeWhile_all_pos {p : Char → Bool} :
    ∀ l : List Char, (∀ c ∈ l, p c = true) → l.takeWhile p = l := by
  intro l
  induction l with
  | nil => intro _; rfl
  | cons a t ih =>
      intro h
      rw [List.takeWhile_cons_of_pos (h a (List.mem_cons_self a t))]
      rw [ih (fun c hc => h c (List.mem_cons_of_mem a hc))]

theorem head?_mem {l : List Char} {a : Char} (h : l.head? = some a) : a ∈ l := by
  cases l with
  | nil => simp at h
  | cons b t =>
      simp only [List.head?_cons, Option.some.injEq] at h
      rw [← h]
      exact List.mem_cons_self b t

theorem getLast?_mem {l : List Char} {a : Char} (h : l.getLast? = some a) :
    a ∈ l := by
  rw [List.getLast?_eq_head?_reverse] at h
  exact List.mem_reverse.mp (head?_mem h)

theorem head?_append_left {l : List Char} (m : List Char) (h : l ≠ []) :
    (l ++ m).head? = l.head? := by
  cases l with
  | nil => exact absurd rfl h
  | cons a t => rfl

theorem getLast?_append_right (l : List Char) {m : List Char} (h : m ≠ []) :
    (l ++ m).getLast? = m.getLast? := by
  rw [List.getLast?_eq_head?_reverse, List.getLast?_eq_head?_reverse]
  rw [List.reverse_append]
  exact head?_append_left _ (by simpa using h)

theorem map_id_of_mem {f : Char → Char} :
    ∀ l : List Char, (∀ c ∈ l, f c = c) → l.map f = l := by
  intro l
  induction l with
  | nil => intro _; rfl
  | cons a t ih =>
      intro h
      rw [List.map_cons, h a (List.mem_cons_self a t),
        ih (fun c hc => h c (List.mem_cons_of_mem a hc))]

theorem stripList_eq_self {l : List Char} (h : ∀ c ∈ l, pyIsSpace c = false) :
    stripList l = l := by
  unfold stripList
  rw [dropWhile_all_neg l h]
  rw [dropWhile_all_neg l.reverse (fun c hc => h c (List.mem_reverse.mp hc))]
  exact List.reverse_reverse l

/- Helper lemmas about clean_category. -/

theorem clean_category_spec (x : String) :
    clean_category x ≠ "" ∧
      ∀ c ∈ (clean_category x).data, isAllowedChar c = true := by
  simp only [clean_category]
  by_cases h : ((stripList x.data).map pyLowerChar).filter isAllowedChar = []
  · rw [if_pos h]
    exact ⟨by decide, by decide⟩
  · rw [if_neg h]
    refine ⟨fun he => h (congrArg String.data he), ?_⟩
    intro c hc
    exact (List.mem_filter.mp hc).2

theorem clean_category_mk_fixed {s : List Char} (hne : s ≠ [])
    (h : ∀ c ∈ s, isAllowedChar c = true) :
    clean_category (String.mk s) = String.mk s := by
  have hdata : (String.mk s).data = s := rfl
  simp only [clean_category, hdata]
  rw [stripList_eq_self (fun c hc => allowed_not_space (h c hc))]
  rw [map_id_of_mem s (fun c hc => allowed_lower_self (h c hc))]
  rw [List.filter_eq_self.mpr h]
  rw [if_neg hne]

/- Helper lemmas about the extension table. -/

theorem lookupTable_mem_values :
    ∀ (l : List (String × String)) (e v : String),
      lookupTable l e = some v → v ∈ l.map Prod.snd := by
  intro l
  induction l with
  | nil =>
      intro e v h
      exact absurd h (by simp [lookupTable])
  | cons a t ih =>
      intro e v h
      cases a with
      | mk k w =>
          simp only [lookupTable] at h
          by_cases hk : k = e
          · rw [if_pos hk] at h
            injection h with h
            rw [List.map_cons]
            rw [← h]
            exact List.mem_cons_self _ _
          · rw [if_neg hk] at h
            rw [List.map_cons]
            exact List.mem_cons_of_mem _ (ih e v h)

theorem mapping_values_ok :
    ∀ v ∈ mapping.map Prod.snd,
      v ≠ "" ∧ ∀ c ∈ v.data, isAllowedChar c = true := by
  decide

theorem lookup_mapping_ok {e v : String} (h : lookupTable mapping e = some v) :
    v ≠ "" ∧ ∀ c ∈ v.data, isAllowedChar c = true :=
  mapping_values_ok v (lookupTable_mem_values mapping e v h)

/- Shape lemmas for the three pipeline stages. -/

theorem classify_file_ok {o : String → Except PyErr String}
    {st st1 : FileState} {n : Nat}
    (h : classify_file o st = (Except.ok st1, n)) :
    st1.filepath = st.filepath ∧ st1.new_path = st.new_path ∧
      st1.logs = st.logs ++ [classifiedMsg (basename st.filepath) st1.category] ∧
      st1.category ≠ "" ∧ ∀ c ∈ st1.category.data, isAllowedChar c = true := by
  simp only [classify_file] at h
  split at h
  · simp only [Prod.mk.injEq, Except.ok.injEq] at h
    obtain ⟨hst, hn⟩ := h
    subst hst
    refine ⟨rfl, rfl, rfl, ?_, ?_⟩
    · exact (lookup_mapping_ok (by assumption)).1
    · exact (lookup_mapping_ok (by assumption)).2
  · split at h
    · simp at h
    · simp only [Prod.mk.injEq, Except.ok.injEq] at h
      obtain ⟨hst, hn⟩ := h
      subst hst
      refine ⟨rfl, rfl, rfl, ?_, ?_⟩
      · exact (clean_category_spec _).1
      · exact (clean_category_spec _).2

theorem move_file_ok {fs : List String} {st st2 : FileState} {fs2 : List String}
    (h : move_file fs st = Except.ok (st2, fs2)) :
    st.filepath ∈ fs ∧
      st2 = { st with
                new_path := destPath st,
                logs := st.logs ++ [movedMsg (destPath st)] } ∧
      fs2 = destPath st :: fs.filter (fun q => q != st.filepath) := by
  simp only [move_file] at h
  split at h
  · simp only [Except.ok.injEq, Prod.mk.injEq] at h
    exact ⟨by assumption, h.1.symm, h.2.symm⟩
  · simp at h

theorem move_file_err {fs : List String} {st : FileState}
    (h : st.filepath ∉ fs) :
    move_file fs st = Except.error PyErr.fileNotFound := by
  simp only [move_file]
  rw [if_neg h]

theorem appInvoke_ok {o : String → Except PyErr String} {fs : List String}
    {input stF : FileState} {fsF : List String} {n : Nat}
    (h : appInvoke o fs input = (Except.ok (stF, fsF), n)) :
    ∃ st1 st2, classify_file o input = (Except.ok st1, n) ∧
      move_file fs st1 = Except.ok (st2, fsF) ∧ stF = log_report st2 := by
  simp only [appInvoke] at h
  split at h
  · simp at h
  · rename_i st1 n1 heq1
    split at h
    · simp at h
    · rename_i st2 fs2 heq2
      simp only [Prod.mk.injEq, Except.ok.injEq] at h
      obtain ⟨⟨hst, hfs⟩, hn⟩ := h
      subst hn
      refine ⟨st1, st2, heq1, ?_, hst.symm⟩
      rw [← hfs]
      exact heq2

theorem appInvoke_classify_err {o : String → Except PyErr String}
    {fs : List String} {input : FileState} {e : PyErr} {n : Nat}
    (h : classify_file o input = (Except.error e, n)) :
    appInvoke o fs input = (Except.error e, n) := by
  simp only [appInvoke]
  rw [h]

theorem appInvoke_move_err {o : String → Except PyErr String}
    {fs : List String} {input st1 : FileState} {e : PyErr} {n : Nat}
    (hc : classify_file o input = (Except.ok st1, n))
    (hm : move_file fs st1 = Except.error e) :
    appInvoke o fs input = (Except.error e, n) := by
  simp only [appInvoke, hc, hm]

/- Helper lemmas about paths and pyJoin. -/

theorem pyJoin_normal {a b : String} (hb : b.data.head? ≠ some '/')
    (ha1 : a.data ≠ []) (ha2 : a.data.getLast? ≠ some '/') :
    pyJoin a b = a ++ slashStr ++ b := by
  simp only [pyJoin]
  rw [if_neg hb]
  rw [if_neg (by
    intro hor
    cases hor with
    | inl h => exact ha1 h
    | inr h => exact ha2 h)]

theorem append_data_ne_nil {a b : String} (hb : b.data ≠ []) :
    (a ++ b).data ≠ [] := by
  rw [String.data_append]
  simp [hb]

theorem append_getLast_ne_slash {a b : String} (hb : b.data ≠ [])
    (h : b.data.getLast? ≠ some '/') :
    (a ++ b).data.getLast? ≠ some '/' := by
  rw [String.data_append, getLast?_append_right _ hb]
  exact h

theorem allowed_string_facts {s : String} (hne : s ≠ "")
    (h : ∀ c ∈ s.data, isAllowedChar c = true) :
    s.data ≠ [] ∧ s.data.head? ≠ some '/' ∧ s.data.getLast? ≠ some '/' := by
  refine ⟨?_, ?_, ?_⟩
  · intro he
    exact hne (String.ext (by rw [he]))
  · intro hh
    exact allowed_ne_slash (h _ (head?_mem hh)) rfl
  · intro hl
    exact allowed_ne_slash (h _ (getLast?_mem hl)) rfl

theorem basename_no_slash (p : String) :
    ∀ c ∈ (basename p).data, c ≠ '/' := by
  intro c hc
  simp only [basename] at hc
  rw [List.mem_reverse] at hc
  have hp := List.mem_takeWhile_imp hc
  simpa using hp

theorem basename_head_ne_slash (p : String) :
    (basename p).data.head? ≠ some '/' := by
  intro h
  exact basename_no_slash p _ (head?_mem h) rfl

theorem seg_fold (x : List Char) :
    slashStr.data ++ (organizedDir.data ++ (slashStr.data ++ x)) =
      orgSeg.data ++ x := by
  rw [← List.append_assoc, ← List.append_assoc]
  congr 1

theorem destPath_formula {st : FileState}
    (hp1 : (dirname st.filepath).data ≠ [])
    (hp2 : (dirname st.filepath).data.getLast? ≠ some '/')
    (hc1 : st.category ≠ "")
    (hc2 : ∀ c ∈ st.category.data, isAllowedChar c = true) :
    destPath st =
      dirname st.filepath ++ orgSeg ++ st.category ++ slashStr ++
        basename st.filepath := by
  obtain ⟨hcd, hch, hcl⟩ := allowed_string_facts hc1 hc2
  have horgne : organizedDir.data ≠ [] := by decide
  have horghead : organizedDir.data.head? ≠ some '/' := by decide
  have horglast : organizedDir.data.getLast? ≠ some '/' := by decide
  simp only [destPath]
  rw [pyJoin_normal horghead hp1 hp2]
  rw [pyJoin_normal hch (append_data_ne_nil horgne)
    (append_getLast_ne_slash horgne horglast)]
  rw [pyJoin_normal (basename_head_ne_slash st.filepath)
    (append_data_ne_nil hcd) (append_getLast_ne_slash hcd hcl)]
  apply String.ext
  simp only [String.data_append, List.append_assoc]
  rw [seg_fold]

/- Claim theorems. -/

/-- C5: the normalization applied to oracle responses is idempotent: for
every string x, clean_category (clean_category x) = clean_category x. -/
theorem clean_category_idempotent (x : String) :
    clean_category (clean_category x) = clean_category x := by
  by_cases h : ((stripList x.data).map pyLowerChar).filter isAllowedChar = []
  · have hx : clean_category x = othersCat := by
      simp only [clean_category]
      rw [if_pos h]
    rw [hx]
    decide
  · have hx : clean_category x =
        String.mk (((stripList x.data).map pyLowerChar).filter isAllowedChar) := by
      simp only [clean_category]
      rw [if_neg h]
    rw [hx]
    exact clean_category_mk_fixed h (fun c hc => (List.mem_filter.mp hc).2)

/-- C1: for every record whose filename's extension (the lowercased
substring after the final dot, as computed by extOf) is a key of the fixed
table, classify_file sets the category to exactly the table's value, appends
the classify log entry, and reports an oracle-call count of 0; the result is
the same for every oracle, so the classification is deterministic and the
oracle is never consulted.  Matching is case-insensitive because extOf
lowercases the extension. -/
theorem classify_table_hit (st : FileState) (cat : String)
    (h : lookupTable mapping (extOf (basename st.filepath)) = some cat) :
    ∀ o : String → Except PyErr String,
      classify_file o st =
        (Except.ok { st with
            category := cat,
            logs := st.logs ++ [classifiedMsg (basename st.filepath) cat] },
          0) := by
  intro o
  simp only [classify_file, h]

/-- Witness for C1: "report.pdf" classifies as documents and "movie.MKV" as
videos, with oracle-call count 0, even under an oracle that would fail. -/
theorem classify_table_hit_witness :
    classify_file (fun _ => Except.error PyErr.oracleError)
        (initState ("/home/user/report.pdf")) =
      (Except.ok { filepath := "/home/user/report.pdf",
                   category := "documents",
                   new_path := "",
                   logs := [classifiedMsg ("report.pdf") ("documents")] },
        0) ∧
    classify_file (fun _ => Except.error PyErr.oracleError)
        (initState ("/films/movie.MKV")) =
      (Except.ok { filepath := "/films/movie.MKV",
                   category := "videos",
                   new_path := "",
                   logs := [classifiedMsg ("movie.MKV") ("videos")] },
        0) :=
  ⟨classify_table_hit (initState ("/home/user/report.pdf")) ("documents")
      (by decide) _,
   classify_table_hit (initState ("/films/movie.MKV")) ("videos")
      (by decide) _⟩

/-- C2 counterexample: a file whose basename is literally "pdf" contains no
dot, yet split(".")[-1] yields "pdf" — a key of the table — so the lookup
matches and the oracle-call count is 0, not the 1 the claim requires; the
extracted extension is the whole filename, not an empty string. -/
theorem noDot_oracle_cex :
    ('.' ∉ (basename ("/data/pdf")).data) ∧
    extOf (basename ("/data/pdf")) = ("pdf" : String) ∧
    (classify_file (fun _ => Except.ok othersCat)
        (initState ("/data/pdf"))).2 = 0 := by
  decide

/-- C2 (amended): for a filename containing no dot, extension extraction
yields the whole lowercased filename (never an empty string); the table is
consulted on that string, the oracle is invoked exactly once when it is
absent from the table, and never when it is present. -/
theorem noDot_ext_amended (fp : String) (o : String → Except PyErr String)
    (hnd : '.' ∉ (basename fp).data) :
    extOf (basename fp) = pyLowerStr (basename fp) ∧
    (lookupTable mapping (extOf (basename fp)) = none →
      (classify_file o (initState fp)).2 = 1) ∧
    (∀ cat, lookupTable mapping (extOf (basename fp)) = some cat →
      (classify_file o (initState fp)).2 = 0) := by
  refine ⟨?_, ?_, ?_⟩
  · have hall : (basename fp).data.reverse.takeWhile (fun c => c != '.') =
        (basename fp).data.reverse := by
      refine takeWhile_all_pos _ (fun c hc => ?_)
      have hm : c ∈ (basename fp).data := List.mem_reverse.mp hc
      simp only [bne_iff_ne, ne_eq]
      intro he
      exact hnd (he ▸ hm)
    simp only [extOf, pyLowerStr]
    rw [hall, List.reverse_reverse]
  · intro hn
    simp only [classify_file, initState]
    rw [hn]
    cases o (basename fp) with
    | error e => rfl
    | ok resp => rfl
  · intro cat hc
    simp only [classify_file, initState]
    rw [hc]

/-- Witness for the amended C2: "README" has no dot, "readme" is not in the
table, and the oracle is invoked exactly once. -/
theorem noDot_ext_amended_witness :
    (classify_file (fun _ => Except.ok ("docs"))
        (initState ("/data/README"))).2 = 1 :=
  (noDot_ext_amended ("/data/README") (fun _ => Except.ok ("docs"))
    (by decide)).2.1 (by decide)

/-- C4: whenever the classify stage completes, the resulting category is
never empty and contains only characters from [a-z0-9_-]; this covers both
the table branch and the oracle branch, whose response passes through
clean_category (strip, lowercase, delete disallowed characters, default to
"others" when empty). -/
theorem classify_category_sane {o : String → Except PyErr String}
    {st st1 : FileState} {n : Nat}
    (h : classify_file o st = (Except.ok st1, n)) :
    st1.category ≠ "" ∧ ∀ c ∈ st1.category.data, isAllowedChar c = true :=
  ⟨(classify_file_ok h).2.2.2.1, (classify_file_ok h).2.2.2.2⟩

/-- Witness for C4: an oracle response " Data Files!! " is normalized to
"datafiles", which is nonempty and inside the allowed alphabet. -/
theorem classify_category_sane_witness :
    ({ filepath := "/data/notes.xyz12", category := "datafiles",
       new_path := "",
       logs := [classifiedMsg ("notes.xyz12") ("datafiles")] } :
        FileState).category ≠ "" ∧
    ∀ c ∈ ({ filepath := "/data/notes.xyz12", category := "datafiles",
             new_path := "",
             logs := [classifiedMsg ("notes.xyz12") ("datafiles")] } :
        FileState).category.data, isAllowedChar c = true :=
  @classify_category_sane (fun _ => Except.ok (" Data Files!! "))
    (initState ("/data/notes.xyz12"))
    { filepath := "/data/notes.xyz12", category := "datafiles",
      new_path := "",
      logs := [classifiedMsg ("notes.xyz12") ("datafiles")] } 1 (by rfl)

/-- C3: after a successful pipeline run on a file whose parent directory is
nonempty and has no trailing slash, new_path equals
<parent>/organized/<category>/<basename> — the parent joined with the fixed
"organized" subdirectory, the category subdirectory, and the unchanged base
filename — and the file now exists at new_path and no longer at the source
path. -/
theorem pipeline_new_path {o : String → Except PyErr String}
    {fs : List String} {fp : String} {stF : FileState} {fsF : List String}
    {n : Nat}
    (h : appInvoke o fs (initState fp) = (Except.ok (stF, fsF), n))
    (hp1 : (dirname fp).data ≠ [])
    (hp2 : (dirname fp).data.getLast? ≠ some '/') :
    stF.new_path =
      dirname fp ++ orgSeg ++ stF.category ++ slashStr ++ basename fp ∧
    stF.new_path ∈ fsF ∧ (fp ≠ stF.new_path → fp ∉ fsF) := by
  obtain ⟨st1, st2, hc, hm, hlog⟩ := appInvoke_ok h
  obtain ⟨hfp, hnp, hlogs, hcat1, hcat2⟩ := classify_file_ok hc
  obtain ⟨hmem, hst2, hfs2⟩ := move_file_ok hm
  have hfp' : st1.filepath = fp := hfp
  have hdest : destPath st1 =
      dirname fp ++ orgSeg ++ st1.category ++ slashStr ++ basename fp := by
    have := @destPath_formula st1
      (by rw [hfp']; exact hp1) (by rw [hfp']; exact hp2) hcat1 hcat2
    rw [this, hfp']
  have hnewF : stF.new_path = destPath st1 := by
    rw [hlog, hst2]
    rfl
  have hcatF : stF.category = st1.category := by
    rw [hlog, hst2]
    rfl
  refine ⟨?_, ?_, ?_⟩
  · rw [hnewF, hcatF, hdest]
  · rw [hfs2, hnewF]
    exact List.mem_cons_self _ _
  · intro hne
    rw [hfs2]
    intro hmemF
    cases hmemF with
    | head => exact hne (by rw [hnewF])
    | tail _ ht =>
        have := (List.mem_filter.mp ht).2
        rw [hfp'] at this
        simp at this

/-- Witness for C3: a successful run on /home/user/report.pdf lands the file
at /home/user/organized/documents/report.pdf, which is the parent directory
followed by /organized/, the category, a slash, and the basename. -/
theorem pipeline_new_path_witness :
    ("/home/user/organized/documents/report.pdf" : String) =
      dirname ("/home/user/report.pdf") ++ orgSeg ++ ("documents" : String) ++
        slashStr ++ basename ("/home/user/report.pdf") ∧
    ("/home/user/organized/documents/report.pdf" : String) ∈
      (["/home/user/organized/documents/report.pdf"] : List String) ∧
    (("/home/user/report.pdf" : String) ≠
        ("/home/user/organized/documents/report.pdf" : String) →
      ("/home/user/report.pdf" : String) ∉
        (["/home/user/organized/documents/report.pdf"] : List String)) :=
  @pipeline_new_path (fun _ => Except.error PyErr.oracleError)
    ["/home/user/report.pdf"] ("/home/user/report.pdf")
    { filepath := "/home/user/report.pdf", category := "documents",
      new_path := "/home/user/organized/documents/report.pdf",
      logs := [classifiedMsg ("report.pdf") ("documents"),
               movedMsg ("/home/user/organized/documents/report.pdf"),
               completedMsg] }
    ["/home/user/organized/documents/report.pdf"] 0
    (by rfl) (by decide) (by decide)

/-- C6: the logs are append-only (each stage's output logs extend its input
logs as a prefix) and strictly grow by at least one entry at each of the
three stages; a fresh record that completes the pipeline ends with at least
three log entries. -/
theorem logs_monotone :
    (∀ (o : String → Except PyErr String) (st st1 : FileState) (n : Nat),
        classify_file o st = (Except.ok st1, n) →
        st.logs <+: st1.logs ∧ st.logs.length + 1 ≤ st1.logs.length) ∧
    (∀ (fs : List String) (st st2 : FileState) (fs2 : List String),
        move_file fs st = Except.ok (st2, fs2) →
        st.logs <+: st2.logs ∧ st.logs.length + 1 ≤ st2.logs.length) ∧
    (∀ st : FileState,
        st.logs <+: (log_report st).logs ∧
        st.logs.length + 1 ≤ (log_report st).logs.length) ∧
    (∀ (o : String → Except PyErr String) (fs : List String) (fp : String)
        (stF : FileState) (fsF : List String) (n : Nat),
        appInvoke o fs (initState fp) = (Except.ok (stF, fsF), n) →
        3 ≤ stF.logs.length) := by
  refine ⟨?_, ?_, ?_, ?_⟩
  · intro o st st1 n h
    obtain ⟨_, _, hlogs, _, _⟩ := classify_file_ok h
    rw [hlogs]
    exact ⟨⟨[classifiedMsg (basename st.filepath) st1.category], rfl⟩, by simp⟩
  · intro fs st st2 fs2 h
    obtain ⟨_, hst2, _⟩ := move_file_ok h
    rw [hst2]
    exact ⟨⟨[movedMsg (destPath st)], rfl⟩, by simp⟩
  · intro st
    exact ⟨⟨[completedMsg], rfl⟩, by simp [log_report]⟩
  · intro o fs fp stF fsF n h
    obtain ⟨st1, st2, hc, hm, hlog⟩ := appInvoke_ok h
    obtain ⟨_, _, hlogs1, _, _⟩ := classify_file_ok hc
    obtain ⟨_, hst2, _⟩ := move_file_ok hm
    rw [hlog]
    simp [log_report, hst2, hlogs1, initState]

/-- Witness for C6: the completed run on /home/user/report.pdf ends with
three log entries. -/
theorem logs_monotone_witness :
    3 ≤ ({ filepath := "/home/user/report.pdf", category := "documents",
           new_path := "/home/user/organized/documents/report.pdf",
           logs := [classifiedMsg ("report.pdf") ("documents"),
                    movedMsg ("/home/user/organized/documents/report.pdf"),
                    completedMsg] } : FileState).logs.length :=
  logs_monotone.2.2.2 (fun _ => Except.error PyErr.oracleError)
    ["/home/user/report.pdf"] ("/home/user/report.pdf")
    { filepath := "/home/user/report.pdf", category := "documents",
      new_path := "/home/user/organized/documents/report.pdf",
      logs := [classifiedMsg ("report.pdf") ("documents"),
               movedMsg ("/home/user/organized/documents/report.pdf"),
               completedMsg] }
    ["/home/user/organized/documents/report.pdf"] 0 (by rfl)

/-- C7: if classification succeeded but the source file vanished before the
move, the move stage raises FileNotFound and the invocation surfaces it as
that file's own failure; the record is left partial — category set, new_path
still empty, and logs holding exactly the classify-stage entry, with nothing
appended afterwards. -/
theorem move_failure_record {o : String → Except PyErr String}
    {fs : List String} {fp : String} {st1 : FileState} {n : Nat}
    (hc : classify_file o (initState fp) = (Except.ok st1, n))
    (hgone : fp ∉ fs) :
    st1.category ≠ "" ∧ st1.new_path = "" ∧
      st1.logs = [classifiedMsg (basename fp) st1.category] ∧
      move_file fs st1 = Except.error PyErr.fileNotFound ∧
      appInvoke o fs (initState fp) = (Except.error PyErr.fileNotFound, n) := by
  obtain ⟨hfp, hnp, hlogs, hcat1, _⟩ := classify_file_ok hc
  have hm : move_file fs st1 = Except.error PyErr.fileNotFound :=
    move_file_err (by rw [hfp]; exact hgone)
  exact ⟨hcat1, hnp, hlogs, hm, appInvoke_move_err hc hm⟩

/-- Witness for C7: with /home/user/report.pdf classified but absent from
the filesystem, the move stage fails with FileNotFound, the record keeps
category "documents", empty new_path, and only the classify log entry. -/
theorem move_failure_record_witness :
    ({ filepath := "/home/user/report.pdf", category := "documents",
       new_path := "",
       logs := [classifiedMsg ("report.pdf") ("documents")] } :
         FileState).category ≠ "" ∧
    ({ filepath := "/home/user/report.pdf", category := "documents",
       new_path := "",
       logs := [classifiedMsg ("report.pdf") ("documents")] } :
         FileState).new_path = "" ∧
    ({ filepath := "/home/user/report.pdf", category := "documents",
       new_path := "",
       logs := [classifiedMsg ("report.pdf") ("documents")] } :
         FileState).logs =
      [classifiedMsg (basename ("/home/user/report.pdf"))
        (({ filepath := "/home/user/report.pdf", category := "documents",
            new_path := "",
            logs := [classifiedMsg ("report.pdf") ("documents")] } :
              FileState).category)] ∧
    move_file []
        { filepath := "/home/user/report.pdf", category := "documents",
          new_path := "",
          logs := [classifiedMsg ("report.pdf") ("documents")] } =
      Except.error PyErr.fileNotFound ∧
    appInvoke (fun _ => Except.error PyErr.oracleError) []
        (initState ("/home/user/report.pdf")) =
      (Except.error PyErr.fileNotFound, 0) :=
  @move_failure_record (fun _ => Except.error PyErr.oracleError) []
    ("/home/user/report.pdf")
    { filepath := "/home/user/report.pdf", category := "documents",
      new_path := "",
      logs := [classifiedMsg ("report.pdf") ("documents")] } 0
    (by rfl) (List.not_mem_nil _)

/-- C8 counterexample: a path that exists nowhere (the filesystem is empty)
is not rejected before the classify stage: classify_file runs normally — it
sets the category and appends its log entry — and the only failure the
pipeline surfaces is a FileNotFound raised later, at the move stage, not an
InvalidInputError before classification. -/
theorem no_precheck_cex :
    (classify_file (fun _ => Except.error PyErr.oracleError)
        (initState ("/data/ghost.pdf"))).1 =
      Except.ok { filepath := "/data/ghost.pdf", category := "documents",
                  new_path := "",
                  logs := [classifiedMsg ("ghost.pdf") ("documents")] } ∧
    appInvoke (fun _ => Except.error PyErr.oracleError) []
        (initState ("/data/ghost.pdf")) =
      (Except.error PyErr.fileNotFound, 0) :=
  ⟨rfl, rfl⟩

/-- C8 (amended): the pipeline performs no validation of the supplied path:
when the path is not an existing file, the classify stage still runs
(setting a nonempty category and appending exactly its log entry), and the
failure surfaces only at the move stage, as FileNotFound. -/
theorem no_precheck_amended {o : String → Except PyErr String}
    {fs : List String} {fp : String} {st1 : FileState} {n : Nat}
    (hgone : fp ∉ fs)
    (hc : classify_file o (initState fp) = (Except.ok st1, n)) :
    st1.logs.length = 1 ∧ st1.category ≠ "" ∧
      appInvoke o fs (initState fp) = (Except.error PyErr.fileNotFound, n) := by
  obtain ⟨hfp, _, hlogs, hcat1, _⟩ := classify_file_ok hc
  have hm : move_file fs st1 = Except.error PyErr.fileNotFound :=
    move_file_err (by rw [hfp]; exact hgone)
  refine ⟨?_, hcat1, appInvoke_move_err hc hm⟩
  rw [hlogs]
  rfl

/-- Witness for the amended C8: the nonexistent /data/ghost.txt is still
classified (one log entry, category documents) and the run fails at move. -/
theorem no_precheck_amended_witness :
    ({ filepath := "/data/ghost.txt", category := "documents",
       new_path := "",
       logs := [classifiedMsg ("ghost.txt") ("documents")] } :
         FileState).logs.length = 1 ∧
    ({ filepath := "/data/ghost.txt", category := "documents",
       new_path := "",
       logs := [classifiedMsg ("ghost.txt") ("documents")] } :
         FileState).category ≠ "" ∧
    appInvoke (fun _ => Except.error PyErr.oracleError) []
        (initState ("/data/ghost.txt")) =
      (Except.error PyErr.fileNotFound, 0) :=
  @no_precheck_amended (fun _ => Except.error PyErr.oracleError) []
    ("/data/ghost.txt")
    { filepath := "/data/ghost.txt", category := "documents",
      new_path := "",
      logs := [classifiedMsg ("ghost.txt") ("documents")] } 0
    (List.not_mem_nil _) (by rfl)

/-- C9 counterexample: with an unknown extension and a failing oracle, the
classify stage makes no logged decision and chooses no fallback category:
the raw oracle error propagates out of classify_file (which returns no
record, hence no log entry and no category at all) and aborts the whole
invocation with that same error. -/
theorem oracle_failure_cex :
    classify_file (fun _ => Except.error PyErr.oracleError)
        (initState ("/data/notes.xyz12")) =
      (Except.error PyErr.oracleError, 1) ∧
    appInvoke (fun _ => Except.error PyErr.oracleError)
        ["/data/notes.xyz12"] (initState ("/data/notes.xyz12")) =
      (Except.error PyErr.oracleError, 1) :=
  ⟨rfl, rfl⟩

/-- C9 (amended): when the oracle call fails, the error is not swallowed at
the classifier layer — it propagates unchanged out of classify_file after
exactly one oracle invocation and aborts that file's pipeline invocation
with the same error — but the engine takes no logged decision and sets no
fallback category (the error outcome carries no record); a classify stage
that does complete never yields an empty category, so the outcome is never a
silent empty category. -/
theorem oracle_failure_propagates {o : String → Except PyErr String}
    {fp : String} {e : PyErr}
    (hmiss : lookupTable mapping (extOf (basename fp)) = none)
    (hfail : o (basename fp) = Except.error e) :
    classify_file o (initState fp) = (Except.error e, 1) ∧
      (∀ fs : List String,
        appInvoke o fs (initState fp) = (Except.error e, 1)) ∧
      (∀ (p : String → Except PyErr String) (st st1 : FileState) (m : Nat),
        classify_file p st = (Except.ok st1, m) → st1.category ≠ "") := by
  have h1 : classify_file o (initState fp) = (Except.error e, 1) := by
    simp only [classify_file, initState]
    rw [hmiss, hfail]
  exact ⟨h1, fun fs => appInvoke_classify_err h1,
    fun p st st1 m h => (classify_file_ok h).2.2.2.1⟩

/-- Witness for the amended C9: a failing oracle on /tmp/odd.qzx aborts the
invocation with the untouched oracle error after one oracle call. -/
theorem oracle_failure_propagates_witness :
    classify_file (fun _ => Except.error PyErr.oracleError)
        (initState ("/tmp/odd.qzx")) =
      (Except.error PyErr.oracleError, 1) ∧
    appInvoke (fun _ => Except.error PyErr.oracleError) ["/tmp/odd.qzx"]
        (initState ("/tmp/odd.qzx")) =
      (Except.error PyErr.oracleError, 1) :=
  ⟨(oracle_failure_propagates (by decide) (by rfl)).1,
   (oracle_failure_propagates (by decide) (by rfl)).2.1 ["/tmp/odd.qzx"]⟩

/-- C10: every successful pipeline invocation started from a fresh record
produces exactly three log entries, in order: the classify entry, the move
entry, and the completion marker. -/
theorem pipeline_exact_logs {o : String → Except PyErr String}
    {fs : List String} {fp : String} {stF : FileState} {fsF : List String}
    {n : Nat}
    (h : appInvoke o fs (initState fp) = (Except.ok (stF, fsF), n)) :
    stF.logs = [classifiedMsg (basename fp) stF.category,
                movedMsg stF.new_path, completedMsg] := by
  obtain ⟨st1, st2, hc, hm, hlog⟩ := appInvoke_ok h
  obtain ⟨hfp, _, hlogs1, _, _⟩ := classify_file_ok hc
  obtain ⟨_, hst2, _⟩ := move_file_ok hm
  subst hlog
  subst hst2
  simp only [log_report]
  rw [hlogs1]
  rfl

/-- Witness for C10: the successful run on /home/user/report.pdf yields
exactly the three expected log lines, in order. -/
theorem pipeline_exact_logs_witness :
    ({ filepath := "/home/user/report.pdf", category := "documents",
       new_path := "/home/user/organized/documents/report.pdf",
       logs := [classifiedMsg ("report.pdf") ("documents"),
                movedMsg ("/home/user/organized/documents/report.pdf"),
                completedMsg] } : FileState).logs =
      [classifiedMsg (basename ("/home/user/report.pdf"))
          (({ filepath := "/home/user/report.pdf", category := "documents",
              new_path := "/home/user/organized/documents/report.pdf",
              logs := [classifiedMsg ("report.pdf") ("documents"),
                       movedMsg ("/home/user/organized/documents/report.pdf"),
                       completedMsg] } : FileState).category),
        movedMsg
          (({ filepath := "/home/user/report.pdf", category := "documents",
              new_path := "/home/user/organized/documents/report.pdf",
              logs := [classifiedMsg ("report.pdf") ("documents"),
                       movedMsg ("/home/user/organized/documents/report.pdf"),
                       completedMsg] } : FileState).new_path),
        completedMsg] :=
  @pipeline_exact_logs (fun _ => Except.error PyErr.oracleError)
    ["/home/user/report.pdf"] ("/home/user/report.pdf")
    { filepath := "/home/user/report.pdf", category := "documents",
      new_path := "/home/user/organized/documents/report.pdf",
      logs := [classifiedMsg ("report.pdf") ("documents"),
               movedMsg ("/home/user/organized/documents/report.pdf"),
               completedMsg] }
    ["/home/user/organized/documents/report.pdf"] 0 (by rfl)
